import Mathlib

/-!
# plugin-demo: the compile, load and swap pipeline of `main.go`

A shallow embedding of `main.go`.  The handlers are state-passing functions: each takes the
outside world of the request (file system, toolchain, module loader), the shared `Context`, the
response writer and the request, and returns the new context, the response, the file system, the
ordered trace of the events the Go code performs, and whether the call unwound by a panic.
Every statement that touches the mutex, the slot or the response is one function on that state,
which performs the effect and appends its event, so the trace is produced by the effects
themselves.  One request runs at a time: a lock call is taken from the point where it returns,
and waiting for other goroutines is outside the model.

Library behaviour the program relies on (`net/http`, `os`, `os/exec`, `plugin`, `strings`) is
written out next to the place where the program calls it.  The `slog.Info` lines and the two
`f.Close()` calls change nothing the handlers return and are left out; `slog.Error` is an event
of the trace.
-/

namespace PluginDemo

/-! ## Errors -/

/-- The value `exec.Cmd.Output` returns when the subprocess exits with a non-zero status
(`*exec.ExitError`): the textual process state, such as `exit status 1`, and the standard error
output that `Output` captured because `Cmd.Stderr` was nil. -/
structure ExitError where
  ProcessState : String
  Stderr : String
deriving DecidableEq, Repr

/-- The dynamic values of the Go interface `error` that reach `storeHandler`. -/
inductive GoError where
  | errorString (s : String)
  | pathError (op : String) (path : String) (err : String)
  | exitError (e : ExitError)
deriving DecidableEq, Repr

/-- The method `Error()`.  For an `*exec.ExitError` it is `e.ProcessState.String()`: the captured
standard error is a field of the value and is no part of the message. -/
def GoError.Error : GoError → String
  | .errorString s => s
  | .pathError op path err => op ++ " " ++ path ++ ": " ++ err
  | .exitError e => e.ProcessState

/-- The function `errors.New`. -/
def errors.New (text : String) : GoError := .errorString text

/-! ## Response writer -/

/-- The state of an `http.ResponseWriter`: the header map, the status line once it has been
written, and the body written so far. -/
structure ResponseWriter where
  header : List (String × String)
  status : Option Nat
  body : String
deriving DecidableEq, Repr

/-- The writer the server hands to a handler at the start of a request. -/
def newResponseWriter : ResponseWriter := { header := [], status := none, body := "" }

/-- The header operation `Del`. -/
def Header.Del (h : List (String × String)) (key : String) : List (String × String) :=
  h.filter (fun kv => decide (kv.1 ≠ key))

/-- The header operation `Set`. -/
def Header.Set (h : List (String × String)) (key value : String) : List (String × String) :=
  Header.Del h key ++ [(key, value)]

/-- The method `WriteHeader`: the first call fixes the status, later calls are ignored. -/
def ResponseWriter.WriteHeader (w : ResponseWriter) (code : Nat) : ResponseWriter :=
  match w.status with
  | some _ => w
  | none => { w with status := some code }

/-- Whether a response with this status may carry a body (`bodyAllowedForStatus`). -/
def bodyAllowedForStatus (status : Nat) : Bool :=
  !(decide (100 ≤ status ∧ status ≤ 199) || decide (status = 204) || decide (status = 304))

/-- The method `Write`: writes status 200 first when no status was written, then appends to the
body unless the status forbids a body. -/
def ResponseWriter.Write (w : ResponseWriter) (s : String) : ResponseWriter :=
  let w1 := w.WriteHeader 200
  match w1.status with
  | some code => if bodyAllowedForStatus code then { w1 with body := w1.body ++ s } else w1
  | none => w1

namespace http

def StatusNoContent : Nat := 204
def StatusBadRequest : Nat := 400
def StatusNotFound : Nat := 404
def StatusMethodNotAllowed : Nat := 405
def StatusInternalServerError : Nat := 500
def MethodGet : String := "GET"
def MethodPost : String := "POST"

/-- The function `http.StatusText`, on the codes this program uses. -/
def StatusText (code : Nat) : String :=
  if code = 204 then "No Content"
  else if code = 400 then "Bad Request"
  else if code = 404 then "Not Found"
  else if code = 405 then "Method Not Allowed"
  else if code = 500 then "Internal Server Error"
  else ""

/-- The function `http.Error`: plain-text headers, the status, then the message and a line
feed (`fmt.Fprintln`). -/
def Error (w : ResponseWriter) (error : String) (code : Nat) : ResponseWriter :=
  let h := Header.Set (Header.Set (Header.Del w.header "Content-Length")
    "Content-Type" "text/plain; charset=utf-8") "X-Content-Type-Options" "nosniff"
  (({ w with header := h } : ResponseWriter).WriteHeader code).Write (error ++ "\n")

end http

/-! ## Requests -/

/-- The parsed form `r.Form`: keys with their values. -/
abbrev Form := List (String × List String)

/-- An inbound request, as far as the program looks at it: the method, and what `r.ParseForm()`
does on it (an error, or the populated form). -/
structure Request where
  Method : String
  ParseForm : Except GoError Form

/-- The method `r.FormValue(key)` after a successful `ParseForm`: the first value of the key, or
the empty string. -/
def FormValue (form : Form) (key : String) : String :=
  match form.lookup key with
  | some (v :: _) => v
  | _ => ""

/-- The predicate `unicode.IsSpace`. -/
def isSpace (c : Char) : Bool :=
  let n := c.toNat
  decide (9 ≤ n ∧ n ≤ 13) || decide (n = 32) || decide (n = 133) || decide (n = 160)
    || decide (n = 5760) || decide (8192 ≤ n ∧ n ≤ 8202) || decide (n = 8232)
    || decide (n = 8233) || decide (n = 8239) || decide (n = 8287) || decide (n = 12288)

/-- The function `strings.TrimSpace`: leading and trailing white space removed. -/
def TrimSpace (s : String) : String :=
  String.mk ((s.data.dropWhile isSpace).reverse.dropWhile isSpace).reverse

/-! ## Handlers -/

/-- What a call of a handler function leaves behind: the response writer, and whether the call
unwound by a panic. -/
structure CallResult where
  w : ResponseWriter
  panicked : Bool
deriving DecidableEq, Repr

/-- A non-nil Go function of type `func(http.ResponseWriter, *http.Request)`. -/
abbrev Func := ResponseWriter → Request → CallResult

/-- A value of type `http.HandlerFunc`; `none` is the nil function. -/
abbrev HandlerFunc := Option Func

/-- A value of the interface `http.Handler`: the nil interface, or a value of dynamic type
`http.HandlerFunc` (the only handler type this program stores). -/
inductive Handler where
  | nil
  | ofHandlerFunc (f : HandlerFunc)

/-- The method `HandlerFunc.ServeHTTP`, which is `f(w, r)`; calling the nil function panics. -/
def HandlerFunc.ServeHTTP (f : HandlerFunc) (w : ResponseWriter) (r : Request) : CallResult :=
  match f with
  | none => { w := w, panicked := true }
  | some g => g w r

/-- The function `http.NotFound`. -/
def http.NotFound : Func := fun w _ =>
  { w := http.Error w "404 page not found" http.StatusNotFound, panicked := false }

/-- The function `http.NotFoundHandler`, which is `HandlerFunc(NotFound)`. -/
def http.NotFoundHandler : Handler := .ofHandlerFunc (some http.NotFound)

/-! ## Modules -/

/-- A `plugin.Symbol`, by dynamic type.  `Lookup` yields the address of a package-level variable
or a function, so the pointer shape carries the variable it points to. -/
inductive Symbol where
  | ptrHandlerFunc (target : HandlerFunc)
  | handlerFunc (f : HandlerFunc)
  | func (f : HandlerFunc)
  | other (typeName : String)

/-- A loaded module: its path and its exported symbols. -/
structure Plugin where
  pluginpath : String
  syms : List (String × Symbol)

/-- The method `Plugin.Lookup`. -/
def Plugin.Lookup (p : Plugin) (symName : String) : Except GoError Symbol :=
  match p.syms.lookup symName with
  | some s => .ok s
  | none => .error (errors.New ("plugin: symbol " ++ symName ++ " not found in plugin "
      ++ p.pluginpath))

/-! ## File system and outside world -/

/-- A file: name and content. -/
structure File where
  name : String
  data : String
deriving DecidableEq, Repr

/-- The file system: the files that exist. -/
abbrev FS := List File

/-- The names of the files that exist. -/
def FS.names (fs : FS) : List String := fs.map File.name

/-- The function `os.Remove`: the named file is gone afterwards; a missing file is an ignored
error. -/
def FS.Remove (fs : FS) (name : String) : FS := fs.filter (fun f => decide (f.name ≠ name))

/-- A successful `os.CreateTemp`: a new empty file of the chosen name. -/
def FS.Create (fs : FS) (name : String) : FS := { name := name, data := "" } :: FS.Remove fs name

/-- A successful `f.WriteString(s)`. -/
def FS.WriteString (fs : FS) (name : String) (s : String) : FS :=
  fs.map (fun f => if f.name = name then { f with data := f.data ++ s } else f)

/-- The world outside the process during one request: the file system at the start, the outcome
of `os.CreateTemp("", "plugin-demo*.go")` (the chosen name, or an error), the outcome of
`f.WriteString`, the toolchain run `go build -buildmode=plugin -ldflags=... -o out src` as a
function of the file system and its two path arguments, and `plugin.Open`. -/
structure World where
  fs : FS
  createTemp : Except GoError String
  writeString : String → Option GoError
  goBuild : FS → String → String → FS × Option GoError
  pluginOpen : FS → String → Except GoError Plugin

/-! ## The mutex -/

/-- The state of a `sync.RWMutex`: how many read locks are held, and whether the write lock
is. -/
structure RWMutex where
  readers : Nat
  writer : Bool
deriving DecidableEq, Repr

/-- The zero value `sync.RWMutex{}`: no lock held. -/
def RWMutex.free : RWMutex := { readers := 0, writer := false }

/-- The mutex once `RLock` has returned. -/
def RWMutex.RLock (m : RWMutex) : RWMutex := { m with readers := m.readers + 1 }

/-- The mutex once `RUnlock` has returned. -/
def RWMutex.RUnlock (m : RWMutex) : RWMutex := { m with readers := m.readers - 1 }

/-- The mutex once `Lock` has returned. -/
def RWMutex.Lock (m : RWMutex) : RWMutex := { m with writer := true }

/-- The mutex once `Unlock` has returned. -/
def RWMutex.Unlock (m : RWMutex) : RWMutex := { m with writer := false }

/-! ## Events -/

/-- The observable steps of one request, in program order.  A slot event carries the handler
value read or stored, and the return of the installed handler carries what the call left
behind. -/
inductive Event where
  | RLock
  | RUnlock
  | Lock
  | Unlock
  | readPlugin (h : Handler)
  | writePlugin (h : Handler)
  | ServeHTTP
  | ServeHTTPDone (res : CallResult)
  | ParseForm
  | buildCode (code : String)
  | lookupHandler
  | slogError (msg : String)
  | Error (code : Nat)
  | WriteHeader (code : Nat)

/-! ## The program -/

/-- The struct `Context`: the mutex `Mutex` points to and the handler slot `Plugin`.  The
embedded `context.Context` is never read. -/
structure Context where
  Mutex : RWMutex
  Plugin : Handler

/-- The state of one handler activation, which is also what it leaves behind: the context, the
response writer, the file system, the events so far, and whether the activation is unwinding by
a panic. -/
structure Result where
  ctx : Context
  w : ResponseWriter
  fs : FS
  trace : List Event
  panicked : Bool

/-- The start of a handler activation. -/
def Result.start (env : World) (ctx : Context) (w : ResponseWriter) : Result :=
  { ctx := ctx, w := w, fs := env.fs, trace := [], panicked := false }

/-- Appends an event to the trace. -/
def Result.emit (s : Result) (e : Event) : Result := { s with trace := s.trace ++ [e] }

/-- The statement `ctx.Mutex.RLock()`. -/
def Result.RLock (s : Result) : Result :=
  ({ s with ctx := { s.ctx with Mutex := s.ctx.Mutex.RLock } } : Result).emit .RLock

/-- The statement `ctx.Mutex.RUnlock()`. -/
def Result.RUnlock (s : Result) : Result :=
  ({ s with ctx := { s.ctx with Mutex := s.ctx.Mutex.RUnlock } } : Result).emit .RUnlock

/-- The statement `ctx.Mutex.Lock()`. -/
def Result.Lock (s : Result) : Result :=
  ({ s with ctx := { s.ctx with Mutex := s.ctx.Mutex.Lock } } : Result).emit .Lock

/-- The statement `ctx.Mutex.Unlock()`. -/
def Result.Unlock (s : Result) : Result :=
  ({ s with ctx := { s.ctx with Mutex := s.ctx.Mutex.Unlock } } : Result).emit .Unlock

/-- The statement `ctx.Plugin = h`. -/
def Result.setPlugin (s : Result) (h : Handler) : Result :=
  ({ s with ctx := { s.ctx with Plugin := h } } : Result).emit (.writePlugin h)

/-- The statement `ctx.Plugin.ServeHTTP(w, r)`: the slot is read, and the method is called on
the value read; a nil interface panics at the call. -/
def Result.ServeHTTP (s : Result) (r : Request) : Result :=
  match s.ctx.Plugin with
  | .nil => { s.emit (.readPlugin .nil) with panicked := true }
  | .ofHandlerFunc f =>
    let res := HandlerFunc.ServeHTTP f s.w r
    { ((s.emit (.readPlugin (.ofHandlerFunc f))).emit .ServeHTTP).emit (.ServeHTTPDone res) with
      w := res.w, panicked := res.panicked }

/-- The statement `http.Error(w, msg, code)`. -/
def Result.Error (s : Result) (msg : String) (code : Nat) : Result :=
  ({ s with w := http.Error s.w msg code } : Result).emit (.Error code)

/-- The statement `w.WriteHeader(code)`. -/
def Result.WriteHeader (s : Result) (code : Nat) : Result :=
  ({ s with w := s.w.WriteHeader code } : Result).emit (.WriteHeader code)

/-- The statement `slog.Error(msg)`. -/
def Result.slogError (s : Result) (msg : String) : Result := s.emit (.slogError msg)

/-- The call `buildCode(ctx.Context, code)` has returned, leaving the file system `fs`. -/
def Result.built (s : Result) (code : String) (fs : FS) : Result :=
  ({ s with fs := fs } : Result).emit (.buildCode code)

/-- The context `main` creates. -/
def mainContext : Context := { Mutex := RWMutex.free, Plugin := http.NotFoundHandler }

/-- The function `buildCode`.  After `CreateTemp` succeeded the two deferred `os.Remove` calls
run on every return, the artifact first. -/
def buildCode (env : World) (code : String) : FS × Except GoError Plugin :=
  match env.createTemp with
  | .error err => (env.fs, .error err)
  | .ok name =>
    let fs1 := FS.Create env.fs name
    let pluginName := name ++ ".so"
    let body : FS × Except GoError Plugin :=
      match env.writeString code with
      | some err => (fs1, .error err)
      | none =>
        let fs2 := FS.WriteString fs1 name code
        match env.goBuild fs2 pluginName name with
        | (fs3, some err) => (fs3, .error err)
        | (fs3, none) => (fs3, env.pluginOpen fs3 pluginName)
    (FS.Remove (FS.Remove body.1 pluginName) name, body.2)

/-- The function `lookupHandler`, returning the pair (handler, error) as the Go code does. -/
def lookupHandler (p : Plugin) : HandlerFunc × Option GoError :=
  match p.Lookup "Handler" with
  | .error err => (none, some err)
  | .ok s =>
    match s with
    | .ptrHandlerFunc h => (h, none)
    | .handlerFunc h => (h, none)
    | .func h => (h, none)
    | .other _ => (some http.NotFound, some (errors.New "unhandled case"))

/-- The closure `fetchHandler(ctx)`: `RLock`, the dispatch to the slot, and the deferred
`RUnlock`, which runs when the dispatch returns and when it unwinds. -/
def fetchHandler (env : World) (ctx : Context) (w : ResponseWriter) (r : Request) : Result :=
  (((Result.start env ctx w).RLock).ServeHTTP r).RUnlock

/-- The closure `storeHandler(ctx)`. -/
def storeHandler (env : World) (ctx : Context) (w : ResponseWriter) (r : Request) : Result :=
  let s0 := (Result.start env ctx w).emit .ParseForm
  match r.ParseForm with
  | .error err => s0.Error err.Error http.StatusBadRequest
  | .ok form =>
    let code := TrimSpace (FormValue form "code")
    match buildCode env code with
    | (fs, .error err) =>
      ((s0.built code fs).slogError err.Error).Error err.Error http.StatusInternalServerError
    | (fs, .ok p) =>
      let s1 := (s0.built code fs).emit .lookupHandler
      match lookupHandler p with
      | (_, some err) =>
        (s1.slogError err.Error).Error err.Error http.StatusInternalServerError
      | (h, none) =>
        (((s1.Lock).setPlugin (.ofHandlerFunc h)).Unlock).WriteHeader http.StatusNoContent

/-- The closure `pluginHandler(ctx)`. -/
def pluginHandler (env : World) (ctx : Context) (w : ResponseWriter) (r : Request) : Result :=
  if r.Method = http.MethodGet then fetchHandler env ctx w r
  else if r.Method = http.MethodPost then storeHandler env ctx w r
  else
    (Result.start env ctx w).Error (http.StatusText http.StatusMethodNotAllowed)
      http.StatusMethodNotAllowed

/-! ## Request sequences -/

/-- One request together with the outside world it meets. -/
structure Input where
  env : World
  r : Request

/-- The context after the server handled one request. -/
def step (ctx : Context) (i : Input) : Context :=
  (pluginHandler i.env ctx newResponseWriter i.r).ctx

/-- The context after the server handled the requests in order. -/
def run (ctx : Context) (is : List Input) : Context := is.foldl step ctx

/-- Whether a request is a successful store: a POST whose form parses, whose trimmed `code`
field builds and whose module resolves. -/
def storeSucceeds (i : Input) : Bool :=
  decide (i.r.Method = http.MethodPost) &&
    match i.r.ParseForm with
    | .error _ => false
    | .ok form =>
      match (buildCode i.env (TrimSpace (FormValue form "code"))).2 with
      | .error _ => false
      | .ok p => (lookupHandler p).2.isNone

/-! ## Lock discipline, as a monitor over traces -/

/-- One event against the discipline, from the mutex state `m`: a lock operation must be
possible and moves the mutex as the program does; the slot is read only with a read lock held
and written only with the write lock held; the installed handler runs with a read lock held;
build, resolution and the status line of a store happen with no lock held.  `none` is a
violation. -/
def lockStep (m : RWMutex) : Event → Option RWMutex
  | .RLock => if m.writer then none else some m.RLock
  | .RUnlock => if m.readers = 0 then none else some m.RUnlock
  | .Lock => if m.writer || decide (m.readers ≠ 0) then none else some m.Lock
  | .Unlock => if m.writer then some m.Unlock else none
  | .readPlugin _ => if m.readers = 0 then none else some m
  | .writePlugin _ => if m.writer then some m else none
  | .ServeHTTP => if m.readers = 0 then none else some m
  | .ServeHTTPDone _ => if m.readers = 0 then none else some m
  | .buildCode _ => if m = RWMutex.free then some m else none
  | .lookupHandler => if m = RWMutex.free then some m else none
  | .WriteHeader _ => if m = RWMutex.free then some m else none
  | _ => some m

/-- A whole trace against the discipline; the result is the mutex state at the end. -/
def lockRun (m : RWMutex) : List Event → Option RWMutex
  | [] => some m
  | e :: es =>
    match lockStep m e with
    | none => none
    | some m1 => lockRun m1 es

/-- The slot after the slot writes of a trace, applied in order to the slot `h`. -/
def slotAfter (h : Handler) : List Event → Handler
  | [] => h
  | .writePlugin h1 :: es => slotAfter h1 es
  | _ :: es => slotAfter h es

/-- Whether an event is an operation on the mutex. -/
def Event.isLockOp : Event → Bool
  | .RLock => true
  | .RUnlock => true
  | .Lock => true
  | .Unlock => true
  | _ => false

/-- Whether an event is an assignment to the slot. -/
def Event.isSlotWrite : Event → Bool
  | .writePlugin _ => true
  | _ => false

/-- Whether an event is a read of the slot. -/
def Event.isSlotRead : Event → Bool
  | .readPlugin _ => true
  | _ => false

/-- Whether a handler value can be called: neither the nil interface nor a nil function. -/
def Handler.callable : Handler → Bool
  | .nil => false
  | .ofHandlerFunc none => false
  | .ofHandlerFunc (some _) => true

/-- Whether the function a symbol carries is non-nil. -/
def Symbol.nonNil : Symbol → Bool
  | .ptrHandlerFunc f => f.isSome
  | .handlerFunc f => f.isSome
  | .func f => f.isSome
  | .other _ => true

/-- Whether the first list occurs at the start of the second. -/
def startsWith : List Char → List Char → Bool
  | [], _ => true
  | _ :: _, [] => false
  | a :: as, b :: bs => a == b && startsWith as bs

/-- Whether the first list occurs somewhere in the second. -/
def occursIn (pat : List Char) : List Char → Bool
  | [] => pat.isEmpty
  | b :: bs => startsWith pat (b :: bs) || occursIn pat bs

/-! ## Example modules, requests and worlds -/

/-- A handler function that writes a fixed body. -/
def sayFunc (msg : String) : Func := fun w _ => { w := w.Write msg, panicked := false }

/-- The name the example worlds give to the temporary source file. -/
def tempName : String := "/tmp/plugin-demo1.go"

/-- A toolchain run that succeeds and writes the artifact. -/
def goBuildOk : FS → String → String → FS × Option GoError :=
  fun fs out _ => ({ name := out, data := "ELF" } :: FS.Remove fs out, none)

/-- A module that exports `Handler` as `s`. -/
def pluginExporting (s : Symbol) : Plugin :=
  { pluginpath := "/tmp/plugin-demo1.go.so", syms := [("Handler", s)] }

/-- A world in which every source builds into a module that exports `Handler` as `s`. -/
def worldExporting (s : Symbol) : World :=
  { fs := [{ name := "/etc/hosts", data := "127.0.0.1 localhost" }],
    createTemp := .ok tempName,
    writeString := fun _ => none,
    goBuild := goBuildOk,
    pluginOpen := fun _ _ => .ok (pluginExporting s) }

/-- A world in which every source builds into a module that exports nothing. -/
def worldNoSymbol : World :=
  { fs := [],
    createTemp := .ok tempName,
    writeString := fun _ => none,
    goBuild := goBuildOk,
    pluginOpen := fun _ path => .ok { pluginpath := path, syms := [] } }

/-- What the compiler prints on the example source. -/
def diagnostics : String := "./plugin-demo1.go:1:1: syntax error"

/-- A world in which the toolchain exits with status 1 after printing `diagnostics`. -/
def worldBuildFails : World :=
  { fs := [{ name := "/etc/hosts", data := "127.0.0.1 localhost" }],
    createTemp := .ok tempName,
    writeString := fun _ => none,
    goBuild := fun fs _ _ =>
      (fs, some (.exitError { ProcessState := "exit status 1", Stderr := diagnostics })),
    pluginOpen := fun _ _ => .error (errors.New "plugin.Open: no such file") }

/-- A POST whose form carries the given `code` field. -/
def postRequest (code : String) : Request :=
  { Method := "POST", ParseForm := .ok [("code", [code])] }

/-- A POST whose form has no `code` field. -/
def postNoCode : Request := { Method := "POST", ParseForm := .ok [] }

/-- A POST whose form does not parse. -/
def postBadForm : Request :=
  { Method := "POST", ParseForm := .error (errors.New "invalid URL escape") }

/-- A GET. -/
def getRequest : Request := { Method := "GET", ParseForm := .ok [] }

/-- A DELETE. -/
def deleteRequest : Request := { Method := "DELETE", ParseForm := .ok [] }

/-! ## Library facts -/

theorem Error_status (w : ResponseWriter) (msg : String) (code : Nat) (hw : w.status = none) :
    (http.Error w msg code).status = some code := by
  unfold http.Error ResponseWriter.Write ResponseWriter.WriteHeader
  simp only [hw]
  split <;> simp_all

theorem Error_new_body (msg : String) (code : Nat) (hc : bodyAllowedForStatus code = true) :
    (http.Error newResponseWriter msg code).body = msg ++ "\n" := by
  unfold http.Error ResponseWriter.Write ResponseWriter.WriteHeader newResponseWriter
  simp [hc]

theorem pluginHandler_get (env : World) (ctx : Context) (w : ResponseWriter) (r : Request)
    (hm : r.Method = http.MethodGet) :
    pluginHandler env ctx w r = fetchHandler env ctx w r := by
  simp [pluginHandler, hm]

theorem pluginHandler_post (env : World) (ctx : Context) (w : ResponseWriter) (r : Request)
    (hm : r.Method = http.MethodPost) :
    pluginHandler env ctx w r = storeHandler env ctx w r := by
  have h : ¬ (r.Method = http.MethodGet) := by
    rw [hm]; decide
  unfold pluginHandler
  rw [if_neg h, if_pos hm]

/-! ## Symbol resolution -/

/-- C4: for every module whose `Handler` symbol is a pointer to an `http.HandlerFunc`, an
`http.HandlerFunc` value, or a plain `func(http.ResponseWriter, *http.Request)`, `lookupHandler`
returns no error and returns the exported function itself, so on every response writer and
request the returned handler behaves as the exported function does, whichever of the three
shapes it was exported in. -/
theorem lookupHandler_accepts_three_shapes (p : Plugin) (s : Symbol) (f : HandlerFunc)
    (hs : p.Lookup "Handler" = .ok s)
    (hshape : s = .ptrHandlerFunc f ∨ s = .handlerFunc f ∨ s = .func f) :
    (lookupHandler p).2 = none ∧ (lookupHandler p).1 = f ∧
      ∀ (w : ResponseWriter) (r : Request),
        HandlerFunc.ServeHTTP (lookupHandler p).1 w r = HandlerFunc.ServeHTTP f w r := by
  have key : lookupHandler p = (f, none) := by
    unfold lookupHandler
    rw [hs]
    rcases hshape with h | h | h <;> subst h <;> rfl
  rw [key]
  exact ⟨rfl, rfl, fun _ _ => rfl⟩

theorem lookupHandler_accepts_three_shapes_witness :
    ((pluginExporting (.func (some (sayFunc "hi")))).Lookup "Handler"
        = .ok (.func (some (sayFunc "hi")))) ∧
      ((lookupHandler (pluginExporting (.func (some (sayFunc "hi"))))).2 = none ∧
        (lookupHandler (pluginExporting (.func (some (sayFunc "hi"))))).1
          = some (sayFunc "hi") ∧
        ∀ (w : ResponseWriter) (r : Request),
          HandlerFunc.ServeHTTP (lookupHandler (pluginExporting (.func (some (sayFunc "hi"))))).1
            w r = HandlerFunc.ServeHTTP (some (sayFunc "hi")) w r) :=
  ⟨rfl,
    lookupHandler_accepts_three_shapes (pluginExporting (.func (some (sayFunc "hi"))))
      (.func (some (sayFunc "hi"))) (some (sayFunc "hi")) rfl (Or.inr (Or.inr rfl))⟩

/-- C5: `lookupHandler` returns the error `e` exactly when `Lookup` of the fixed name `Handler`
failed with `e` (the name is absent from the module; the error is passed on unchanged), or the
symbol is present with a dynamic type outside the three accepted shapes and `e` is the error
`unhandled case`; and `Lookup` fails exactly when the name is absent, with the not-found
message. -/
theorem lookupHandler_error_iff (p : Plugin) (e : GoError) :
    ((lookupHandler p).2 = some e ↔
      (p.Lookup "Handler" = .error e ∨
        ∃ t, p.Lookup "Handler" = .ok (.other t) ∧ e = errors.New "unhandled case")) ∧
    (p.Lookup "Handler" = .error e ↔
      (p.syms.lookup "Handler" = none ∧
        e = errors.New ("plugin: symbol Handler not found in plugin " ++ p.pluginpath))) := by
  constructor
  · unfold lookupHandler
    cases hl : p.Lookup "Handler" with
    | error err => simp
    | ok s =>
      cases s <;> simp
      exact eq_comm
  · unfold Plugin.Lookup
    cases hl : p.syms.lookup "Handler" with
    | none =>
      simp only [Except.error.injEq, true_and]
      constructor
      · intro h; rw [← h]; rfl
      · intro h; rw [h]; rfl
    | some s => simp

/-! ## The store pipeline, path by path -/

theorem RWMutex.RLock_RUnlock (m : RWMutex) : m.RLock.RUnlock = m := by
  cases m
  simp [RWMutex.RLock, RWMutex.RUnlock]

theorem fetchHandler_nil (env : World) (m : RWMutex) (w : ResponseWriter) (r : Request) :
    fetchHandler env { Mutex := m, Plugin := .nil } w r =
      { ctx := { Mutex := m.RLock.RUnlock, Plugin := .nil }, w := w, fs := env.fs,
        panicked := true, trace := [.RLock, .readPlugin .nil, .RUnlock] } :=
  rfl

theorem fetchHandler_func (env : World) (m : RWMutex) (f : HandlerFunc) (w : ResponseWriter)
    (r : Request) :
    fetchHandler env { Mutex := m, Plugin := .ofHandlerFunc f } w r =
      { ctx := { Mutex := m.RLock.RUnlock, Plugin := .ofHandlerFunc f },
        w := (HandlerFunc.ServeHTTP f w r).w, fs := env.fs,
        panicked := (HandlerFunc.ServeHTTP f w r).panicked,
        trace := [.RLock, .readPlugin (.ofHandlerFunc f), .ServeHTTP,
          .ServeHTTPDone (HandlerFunc.ServeHTTP f w r), .RUnlock] } :=
  rfl

theorem fetchHandler_ctx (env : World) (ctx : Context) (w : ResponseWriter) (r : Request) :
    (fetchHandler env ctx w r).ctx = ctx := by
  obtain ⟨m, pl⟩ := ctx
  cases pl with
  | nil => rw [fetchHandler_nil, RWMutex.RLock_RUnlock]
  | ofHandlerFunc f => rw [fetchHandler_func, RWMutex.RLock_RUnlock]

theorem pluginHandler_other (env : World) (ctx : Context) (w : ResponseWriter) (r : Request)
    (hg : r.Method ≠ http.MethodGet) (hp : r.Method ≠ http.MethodPost) :
    pluginHandler env ctx w r =
      { ctx := ctx, w := http.Error w "Method Not Allowed" 405, fs := env.fs,
        panicked := false, trace := [.Error 405] } := by
  unfold pluginHandler
  rw [if_neg hg, if_neg hp]
  rfl

theorem storeHandler_parse_error (env : World) (ctx : Context) (w : ResponseWriter)
    (r : Request) (e : GoError) (hf : r.ParseForm = .error e) :
    storeHandler env ctx w r =
      { ctx := ctx, w := http.Error w e.Error http.StatusBadRequest, fs := env.fs,
        panicked := false, trace := [.ParseForm, .Error http.StatusBadRequest] } := by
  unfold storeHandler
  rw [hf]
  rfl

theorem storeHandler_build_error (env : World) (ctx : Context) (w : ResponseWriter)
    (r : Request) (form : Form) (e : GoError) (hf : r.ParseForm = .ok form)
    (hb : (buildCode env (TrimSpace (FormValue form "code"))).2 = .error e) :
    storeHandler env ctx w r =
      { ctx := ctx, w := http.Error w e.Error http.StatusInternalServerError,
        fs := (buildCode env (TrimSpace (FormValue form "code"))).1, panicked := false,
        trace := [.ParseForm, .buildCode (TrimSpace (FormValue form "code")),
          .slogError e.Error, .Error http.StatusInternalServerError] } := by
  unfold storeHandler
  rw [hf]
  cases hbc : buildCode env (TrimSpace (FormValue form "code")) with
  | mk fs res =>
    rw [hbc] at hb
    simp only at hb
    subst hb
    simp only [hbc]
    rfl

theorem storeHandler_lookup_error (env : World) (ctx : Context) (w : ResponseWriter)
    (r : Request) (form : Form) (p : Plugin) (e : GoError) (hf : r.ParseForm = .ok form)
    (hb : (buildCode env (TrimSpace (FormValue form "code"))).2 = .ok p)
    (hl : (lookupHandler p).2 = some e) :
    storeHandler env ctx w r =
      { ctx := ctx, w := http.Error w e.Error http.StatusInternalServerError,
        fs := (buildCode env (TrimSpace (FormValue form "code"))).1, panicked := false,
        trace := [.ParseForm, .buildCode (TrimSpace (FormValue form "code")), .lookupHandler,
          .slogError e.Error, .Error http.StatusInternalServerError] } := by
  unfold storeHandler
  rw [hf]
  cases hbc : buildCode env (TrimSpace (FormValue form "code")) with
  | mk fs res =>
    rw [hbc] at hb
    simp only at hb
    subst hb
    simp only [hbc]
    cases hlk : lookupHandler p with
    | mk h oe =>
      rw [hlk] at hl
      simp only at hl
      subst hl
      rfl

theorem storeHandler_success (env : World) (ctx : Context) (w : ResponseWriter)
    (r : Request) (form : Form) (p : Plugin) (hf : r.ParseForm = .ok form)
    (hb : (buildCode env (TrimSpace (FormValue form "code"))).2 = .ok p)
    (hl : (lookupHandler p).2 = none) :
    storeHandler env ctx w r =
      { ctx := { Mutex := ctx.Mutex.Lock.Unlock, Plugin := .ofHandlerFunc (lookupHandler p).1 },
        w := w.WriteHeader http.StatusNoContent,
        fs := (buildCode env (TrimSpace (FormValue form "code"))).1, panicked := false,
        trace := [.ParseForm, .buildCode (TrimSpace (FormValue form "code")), .lookupHandler,
          .Lock, .writePlugin (.ofHandlerFunc (lookupHandler p).1), .Unlock,
          .WriteHeader http.StatusNoContent] } := by
  unfold storeHandler
  rw [hf]
  cases hbc : buildCode env (TrimSpace (FormValue form "code")) with
  | mk fs res =>
    rw [hbc] at hb
    simp only at hb
    subst hb
    simp only [hbc]
    cases hlk : lookupHandler p with
    | mk h oe =>
      rw [hlk] at hl
      simp only at hl
      subst hl
      rfl

theorem run_append_one (ctx : Context) (pre : List Input) (i : Input) :
    run ctx (pre ++ [i]) = step (run ctx pre) i := by
  simp [run, List.foldl_append]

theorem step_success (ctx : Context) (env : World) (r : Request) (form : Form) (p : Plugin)
    (hm : r.Method = http.MethodPost) (hf : r.ParseForm = .ok form)
    (hb : (buildCode env (TrimSpace (FormValue form "code"))).2 = .ok p)
    (hl : (lookupHandler p).2 = none) :
    step ctx { env := env, r := r } =
      { Mutex := ctx.Mutex.Lock.Unlock, Plugin := .ofHandlerFunc (lookupHandler p).1 } := by
  unfold step
  simp only
  rw [pluginHandler_post env ctx _ r hm, storeHandler_success env ctx _ r form p hf hb hl]

theorem step_no_success (ctx : Context) (i : Input) (hno : storeSucceeds i = false) :
    step ctx i = ctx := by
  unfold step
  by_cases hg : i.r.Method = http.MethodGet
  · rw [pluginHandler_get _ _ _ _ hg, fetchHandler_ctx]
  · by_cases hpst : i.r.Method = http.MethodPost
    · rw [pluginHandler_post _ _ _ _ hpst]
      cases hf : i.r.ParseForm with
      | error e => rw [storeHandler_parse_error _ _ _ _ e hf]
      | ok form =>
        cases hb : (buildCode i.env (TrimSpace (FormValue form "code"))).2 with
        | error e => rw [storeHandler_build_error _ _ _ _ form e hf hb]
        | ok p =>
          cases hl : (lookupHandler p).2 with
          | some e => rw [storeHandler_lookup_error _ _ _ _ form p e hf hb hl]
          | none =>
            exfalso
            unfold storeSucceeds at hno
            simp [hpst, hf, hb, hl] at hno
    · rw [pluginHandler_other _ _ _ _ hg hpst]

theorem run_no_success (ctx : Context) (is : List Input)
    (hno : ∀ i ∈ is, storeSucceeds i = false) : run ctx is = ctx := by
  induction is generalizing ctx with
  | nil => rfl
  | cons i rest ih =>
    have h1 : step ctx i = ctx := step_no_success ctx i (hno i (List.mem_cons_self i rest))
    have h2 : run ctx (i :: rest) = run (step ctx i) rest := rfl
    rw [h2, h1]
    exact ih ctx (fun j hj => hno j (List.mem_cons_of_mem i hj))

/-! ## The store contract -/

/-- C1: for every state of the handler slot and every POST whose form parses and whose trimmed
`code` field builds and resolves, `storeHandler` answers 204 with no header and no body, does
not panic, and leaves the slot holding exactly the handler `lookupHandler` returned; the next
GET, in any world and on any writer, is served by that handler whatever the slot held before;
and after any earlier requests followed by this store, the slot holds this handler and a GET is
served by it. -/
theorem store_success_installs_handler (env : World) (ctx : Context) (r : Request)
    (form : Form) (p : Plugin) (hm : r.Method = http.MethodPost)
    (hf : r.ParseForm = .ok form)
    (hb : (buildCode env (TrimSpace (FormValue form "code"))).2 = .ok p)
    (hl : (lookupHandler p).2 = none) :
    pluginHandler env ctx newResponseWriter r = storeHandler env ctx newResponseWriter r ∧
      (storeHandler env ctx newResponseWriter r).w
        = { header := [], status := some 204, body := "" } ∧
      (storeHandler env ctx newResponseWriter r).panicked = false ∧
      (storeHandler env ctx newResponseWriter r).ctx.Plugin
        = .ofHandlerFunc (lookupHandler p).1 ∧
      (∀ (env2 : World) (w2 : ResponseWriter) (r2 : Request), r2.Method = http.MethodGet →
        (pluginHandler env2 (storeHandler env ctx newResponseWriter r).ctx w2 r2).w
            = (HandlerFunc.ServeHTTP (lookupHandler p).1 w2 r2).w ∧
          (pluginHandler env2 (storeHandler env ctx newResponseWriter r).ctx w2 r2).panicked
            = (HandlerFunc.ServeHTTP (lookupHandler p).1 w2 r2).panicked) ∧
      (∀ (ctx0 : Context) (pre : List Input) (env2 : World) (w2 : ResponseWriter)
          (r2 : Request), r2.Method = http.MethodGet →
        (run ctx0 (pre ++ [{ env := env, r := r }])).Plugin
            = .ofHandlerFunc (lookupHandler p).1 ∧
          (pluginHandler env2 (run ctx0 (pre ++ [{ env := env, r := r }])) w2 r2).w
            = (HandlerFunc.ServeHTTP (lookupHandler p).1 w2 r2).w) := by
  have hs := storeHandler_success env ctx newResponseWriter r form p hf hb hl
  refine ⟨pluginHandler_post env ctx _ r hm, ?_, ?_, ?_, ?_, ?_⟩
  · rw [hs]; rfl
  · rw [hs]
  · rw [hs]
  · intro env2 w2 r2 hg
    rw [hs, pluginHandler_get env2 _ w2 r2 hg]
    exact ⟨rfl, rfl⟩
  · intro ctx0 pre env2 w2 r2 hg
    rw [run_append_one, step_success (run ctx0 pre) env r form p hm hf hb hl,
      pluginHandler_get env2 _ w2 r2 hg]
    exact ⟨rfl, rfl⟩

theorem store_success_installs_handler_witness :
    (postRequest " package main ").Method = http.MethodPost ∧
      (postRequest " package main ").ParseForm = .ok [("code", [" package main "])] ∧
      (buildCode (worldExporting (.func (some (sayFunc "v2"))))
          (TrimSpace (FormValue [("code", [" package main "])] "code"))).2
        = .ok (pluginExporting (.func (some (sayFunc "v2")))) ∧
      (lookupHandler (pluginExporting (.func (some (sayFunc "v2"))))).2 = none ∧
      (storeHandler (worldExporting (.func (some (sayFunc "v2")))) mainContext newResponseWriter
          (postRequest " package main ")).w = { header := [], status := some 204, body := "" } ∧
      (pluginHandler worldBuildFails
          (storeHandler (worldExporting (.func (some (sayFunc "v2")))) mainContext
            newResponseWriter (postRequest " package main ")).ctx newResponseWriter getRequest).w
        = (HandlerFunc.ServeHTTP (lookupHandler (pluginExporting (.func (some (sayFunc "v2"))))).1
            newResponseWriter getRequest).w :=
  ⟨rfl, rfl, rfl, rfl,
    (store_success_installs_handler (worldExporting (.func (some (sayFunc "v2")))) mainContext
      (postRequest " package main ") [("code", [" package main "])]
      (pluginExporting (.func (some (sayFunc "v2")))) rfl rfl rfl rfl).2.1,
    ((store_success_installs_handler (worldExporting (.func (some (sayFunc "v2")))) mainContext
      (postRequest " package main ") [("code", [" package main "])]
      (pluginExporting (.func (some (sayFunc "v2")))) rfl rfl rfl rfl).2.2.2.2.1
        worldBuildFails newResponseWriter getRequest rfl).1⟩

/-- C2: for every state of the handler slot and every POST whose form parses but whose build
or resolution returns the error `err`, `storeHandler` answers 500 with the message of `err` as
the body line, does not panic, and leaves the slot as it was, so every later request is handled
as it would have been before; the trimmed `code` field is what the builder received, and when
the form has no `code` field that is the empty string: the request is not answered 400, it goes
to the builder and gets the 500 of the failed build. -/
theorem store_failure_keeps_handler (env : World) (ctx : Context) (r : Request) (form : Form)
    (err : GoError) (hf : r.ParseForm = .ok form)
    (hfail : (buildCode env (TrimSpace (FormValue form "code"))).2 = .error err ∨
      ∃ p, (buildCode env (TrimSpace (FormValue form "code"))).2 = .ok p ∧
        (lookupHandler p).2 = some err) :
    (storeHandler env ctx newResponseWriter r).w.status = some 500 ∧
      (storeHandler env ctx newResponseWriter r).w.body = err.Error ++ "\n" ∧
      (storeHandler env ctx newResponseWriter r).panicked = false ∧
      (storeHandler env ctx newResponseWriter r).ctx.Plugin = ctx.Plugin ∧
      (∀ (env2 : World) (w2 : ResponseWriter) (r2 : Request),
        pluginHandler env2 (storeHandler env ctx newResponseWriter r).ctx w2 r2
          = pluginHandler env2 ctx w2 r2) ∧
      Event.buildCode (TrimSpace (FormValue form "code"))
        ∈ (storeHandler env ctx newResponseWriter r).trace ∧
      (form.lookup "code" = none →
        FormValue form "code" = "" ∧
          Event.buildCode "" ∈ (storeHandler env ctx newResponseWriter r).trace) := by
  have hres : (storeHandler env ctx newResponseWriter r).w
        = http.Error newResponseWriter err.Error http.StatusInternalServerError ∧
      (storeHandler env ctx newResponseWriter r).panicked = false ∧
      (storeHandler env ctx newResponseWriter r).ctx = ctx ∧
      Event.buildCode (TrimSpace (FormValue form "code"))
        ∈ (storeHandler env ctx newResponseWriter r).trace := by
    rcases hfail with hb | ⟨p, hb, hl⟩
    · rw [storeHandler_build_error env ctx _ r form err hf hb]
      exact ⟨rfl, rfl, rfl, by simp⟩
    · rw [storeHandler_lookup_error env ctx _ r form p err hf hb hl]
      exact ⟨rfl, rfl, rfl, by simp⟩
  obtain ⟨hw, hp, hc, ht⟩ := hres
  refine ⟨?_, ?_, hp, ?_, ?_, ht, ?_⟩
  · rw [hw]; exact Error_status _ _ _ rfl
  · rw [hw]; exact Error_new_body _ _ (by decide)
  · rw [hc]
  · intro env2 w2 r2; rw [hc]
  · intro hno
    have hv : FormValue form "code" = "" := by
      unfold FormValue
      rw [hno]
    refine ⟨hv, ?_⟩
    have ht2 := ht
    rw [hv] at ht2
    exact ht2

theorem store_failure_keeps_handler_witness :
    postNoCode.ParseForm = .ok [] ∧
      (buildCode worldBuildFails (TrimSpace (FormValue [] "code"))).2
        = .error (.exitError { ProcessState := "exit status 1", Stderr := diagnostics }) ∧
      (storeHandler worldBuildFails mainContext newResponseWriter postNoCode).w.status
        = some 500 ∧
      (storeHandler worldBuildFails mainContext newResponseWriter postNoCode).w.body
        = "exit status 1\n" ∧
      (storeHandler worldBuildFails mainContext newResponseWriter postNoCode).ctx.Plugin
        = http.NotFoundHandler ∧
      Event.buildCode "" ∈ (storeHandler worldBuildFails mainContext newResponseWriter
        postNoCode).trace :=
  ⟨rfl, rfl,
    (store_failure_keeps_handler worldBuildFails mainContext postNoCode []
      (.exitError { ProcessState := "exit status 1", Stderr := diagnostics }) rfl
      (Or.inl rfl)).1,
    (store_failure_keeps_handler worldBuildFails mainContext postNoCode []
      (.exitError { ProcessState := "exit status 1", Stderr := diagnostics }) rfl
      (Or.inl rfl)).2.1,
    (store_failure_keeps_handler worldBuildFails mainContext postNoCode []
      (.exitError { ProcessState := "exit status 1", Stderr := diagnostics }) rfl
      (Or.inl rfl)).2.2.2.1,
    ((store_failure_keeps_handler worldBuildFails mainContext postNoCode []
      (.exitError { ProcessState := "exit status 1", Stderr := diagnostics }) rfl
      (Or.inl rfl)).2.2.2.2.2.2 rfl).2⟩

/-! ## Before the first successful store -/

/-- C3: starting from the context `main` creates, after every finite sequence of requests none
of which is a successful store (GETs, other methods, POSTs with unparsable forms, POSTs whose
build or resolution fails), the slot still holds the not-found handler, and a following GET is
answered by it: status 404, body `404 page not found`, no panic. -/
theorem no_store_serves_not_found (is : List Input) (env : World) (r : Request)
    (hno : ∀ i ∈ is, storeSucceeds i = false) (hm : r.Method = http.MethodGet) :
    (run mainContext is).Plugin = http.NotFoundHandler ∧
      (pluginHandler env (run mainContext is) newResponseWriter r).w.status = some 404 ∧
      (pluginHandler env (run mainContext is) newResponseWriter r).w.body
        = "404 page not found\n" ∧
      (pluginHandler env (run mainContext is) newResponseWriter r).panicked = false ∧
      (pluginHandler env (run mainContext is) newResponseWriter r).trace
        = [.RLock, .readPlugin http.NotFoundHandler, .ServeHTTP,
          .ServeHTTPDone (HandlerFunc.ServeHTTP (some http.NotFound) newResponseWriter r),
          .RUnlock] := by
  rw [run_no_success mainContext is hno, pluginHandler_get env _ _ r hm]
  exact ⟨rfl, rfl, rfl, rfl, rfl⟩

theorem no_store_serves_not_found_witness :
    (∀ i ∈ [({ env := worldBuildFails, r := getRequest } : Input),
        { env := worldBuildFails, r := deleteRequest },
        { env := worldBuildFails, r := postBadForm },
        { env := worldBuildFails, r := postRequest "func" },
        { env := worldNoSymbol, r := postRequest "package main" },
        { env := worldExporting (.other "int"), r := postRequest "package main" }],
        storeSucceeds i = false) ∧
      getRequest.Method = http.MethodGet ∧
      (pluginHandler worldBuildFails
        (run mainContext [({ env := worldBuildFails, r := getRequest } : Input),
          { env := worldBuildFails, r := deleteRequest },
          { env := worldBuildFails, r := postBadForm },
          { env := worldBuildFails, r := postRequest "func" },
          { env := worldNoSymbol, r := postRequest "package main" },
          { env := worldExporting (.other "int"), r := postRequest "package main" }])
        newResponseWriter getRequest).w.status = some 404 :=
  ⟨by decide, rfl,
    (no_store_serves_not_found [({ env := worldBuildFails, r := getRequest } : Input),
        { env := worldBuildFails, r := deleteRequest },
        { env := worldBuildFails, r := postBadForm },
        { env := worldBuildFails, r := postRequest "func" },
        { env := worldNoSymbol, r := postRequest "package main" },
        { env := worldExporting (.other "int"), r := postRequest "package main" }]
      worldBuildFails getRequest (by decide) rfl).2.1⟩

/-! ## Requests that never reach the build -/

/-- C9: a request whose method is neither GET nor POST is answered 405 with the body line
`Method Not Allowed`, and a POST whose form does not parse is answered 400 with the parse
error message as the body line; in both cases no `buildCode` and no `lookupHandler` event
occurs, the file system is the one the request started with, and the slot is unchanged. -/
theorem rejected_requests_skip_build (env : World) (ctx : Context) (r : Request) :
    (r.Method ≠ http.MethodGet → r.Method ≠ http.MethodPost →
      (pluginHandler env ctx newResponseWriter r).w.status = some 405 ∧
        (pluginHandler env ctx newResponseWriter r).w.body = "Method Not Allowed\n" ∧
        (pluginHandler env ctx newResponseWriter r).ctx.Plugin = ctx.Plugin ∧
        (pluginHandler env ctx newResponseWriter r).fs = env.fs ∧
        (∀ c, Event.buildCode c ∉ (pluginHandler env ctx newResponseWriter r).trace) ∧
        Event.lookupHandler ∉ (pluginHandler env ctx newResponseWriter r).trace) ∧
    (∀ e, r.Method = http.MethodPost → r.ParseForm = .error e →
      (pluginHandler env ctx newResponseWriter r).w.status = some 400 ∧
        (pluginHandler env ctx newResponseWriter r).w.body = e.Error ++ "\n" ∧
        (pluginHandler env ctx newResponseWriter r).ctx.Plugin = ctx.Plugin ∧
        (pluginHandler env ctx newResponseWriter r).fs = env.fs ∧
        (∀ c, Event.buildCode c ∉ (pluginHandler env ctx newResponseWriter r).trace) ∧
        Event.lookupHandler ∉ (pluginHandler env ctx newResponseWriter r).trace) := by
  constructor
  · intro hg hp
    rw [pluginHandler_other env ctx _ r hg hp]
    refine ⟨rfl, rfl, rfl, rfl, ?_, ?_⟩
    · intro c; simp
    · simp
  · intro e hp hf
    rw [pluginHandler_post env ctx _ r hp, storeHandler_parse_error env ctx _ r e hf]
    refine ⟨Error_status _ _ _ rfl, Error_new_body _ _ (by decide), rfl, rfl, ?_, ?_⟩
    · intro c; simp
    · simp

theorem rejected_requests_skip_build_witness :
    deleteRequest.Method ≠ http.MethodGet ∧ deleteRequest.Method ≠ http.MethodPost ∧
      (pluginHandler (worldExporting (.func (some (sayFunc "v2")))) mainContext newResponseWriter
        deleteRequest).w.status = some 405 ∧
      postBadForm.Method = http.MethodPost ∧
      postBadForm.ParseForm = .error (errors.New "invalid URL escape") ∧
      (pluginHandler (worldExporting (.func (some (sayFunc "v2")))) mainContext newResponseWriter
        postBadForm).w.body = "invalid URL escape\n" :=
  ⟨by decide, by decide,
    ((rejected_requests_skip_build (worldExporting (.func (some (sayFunc "v2")))) mainContext
      deleteRequest).1 (by decide) (by decide)).1,
    rfl, rfl,
    ((rejected_requests_skip_build (worldExporting (.func (some (sayFunc "v2")))) mainContext
      postBadForm).2 (errors.New "invalid URL escape") rfl rfl).2.1⟩

/-! ## What the client sees of a failed toolchain run -/

theorem buildCode_toolchain_error (env : World) (code name : String) (err : GoError)
    (hct : env.createTemp = .ok name) (hws : env.writeString code = none)
    (hgb : (env.goBuild (FS.WriteString (FS.Create env.fs name) name code)
      (name ++ ".so") name).2 = some err) :
    (buildCode env code).2 = .error err := by
  unfold buildCode
  rw [hct]
  simp only [hws]
  rcases hg : env.goBuild (FS.WriteString (FS.Create env.fs name) name code)
    (name ++ ".so") name with ⟨fs3, oe⟩
  rw [hg] at hgb
  simp only at hgb
  subst hgb
  rfl

/-- C6, as the code has it: when the toolchain run inside `buildCode` exits with a non-zero
status, `buildCode` returns the exit error of `Output` unchanged; its message, which is what
`storeHandler` logs and sends as the body line of the 500 response, is the process state text
(such as `exit status 1`), whatever the captured standard error was. -/
theorem toolchain_failure_reports_exit_state (env : World) (ctx : Context) (r : Request)
    (form : Form) (name : String) (e : ExitError)
    (hf : r.ParseForm = .ok form) (hct : env.createTemp = .ok name)
    (hws : env.writeString (TrimSpace (FormValue form "code")) = none)
    (hgb : (env.goBuild
      (FS.WriteString (FS.Create env.fs name) name (TrimSpace (FormValue form "code")))
      (name ++ ".so") name).2 = some (.exitError e)) :
    (buildCode env (TrimSpace (FormValue form "code"))).2 = .error (.exitError e) ∧
      (storeHandler env ctx newResponseWriter r).w.status = some 500 ∧
      (storeHandler env ctx newResponseWriter r).w.body = e.ProcessState ++ "\n" ∧
      Event.slogError e.ProcessState ∈ (storeHandler env ctx newResponseWriter r).trace := by
  have hb := buildCode_toolchain_error env _ name _ hct hws hgb
  refine ⟨hb, ?_, ?_, ?_⟩
  · rw [storeHandler_build_error env ctx _ r form _ hf hb]
    exact Error_status _ _ _ rfl
  · rw [storeHandler_build_error env ctx _ r form _ hf hb]
    exact Error_new_body _ _ (by decide)
  · rw [storeHandler_build_error env ctx _ r form _ hf hb]
    simp [GoError.Error]

theorem toolchain_failure_reports_exit_state_witness :
    (postRequest "func").ParseForm = .ok [("code", ["func"])] ∧
      worldBuildFails.createTemp = .ok tempName ∧
      worldBuildFails.writeString (TrimSpace (FormValue [("code", ["func"])] "code")) = none ∧
      (worldBuildFails.goBuild
        (FS.WriteString (FS.Create worldBuildFails.fs tempName) tempName
          (TrimSpace (FormValue [("code", ["func"])] "code")))
        (tempName ++ ".so") tempName).2
        = some (.exitError { ProcessState := "exit status 1", Stderr := diagnostics }) ∧
      (storeHandler worldBuildFails mainContext newResponseWriter (postRequest "func")).w.body
        = "exit status 1\n" :=
  ⟨rfl, rfl, rfl, rfl,
    (toolchain_failure_reports_exit_state worldBuildFails mainContext (postRequest "func")
      [("code", ["func"])] tempName { ProcessState := "exit status 1", Stderr := diagnostics }
      rfl rfl rfl rfl).2.2.1⟩

/-- C6 as stated fails: the toolchain exits with status 1 after printing `diagnostics`;
`buildCode` returns the exit error that carries them, and the 500 response body is the line
`exit status 1`, in which the diagnostics do not occur. -/
theorem toolchain_diagnostics_missing_from_body :
    (buildCode worldBuildFails "func").2
        = .error (.exitError { ProcessState := "exit status 1", Stderr := diagnostics }) ∧
      (storeHandler worldBuildFails mainContext newResponseWriter (postRequest "func")).w.status
        = some 500 ∧
      (storeHandler worldBuildFails mainContext newResponseWriter (postRequest "func")).w.body
        = "exit status 1\n" ∧
      occursIn diagnostics.data
        (storeHandler worldBuildFails mainContext newResponseWriter
          (postRequest "func")).w.body.data = false := by
  refine ⟨rfl, rfl, rfl, ?_⟩
  decide

/-! ## Temporary files -/

theorem mem_Remove (fs : FS) (name : String) (f : File) :
    f ∈ FS.Remove fs name ↔ f ∈ fs ∧ f.name ≠ name := by
  simp [FS.Remove]

theorem not_mem_names_Remove (fs : FS) (name : String) : name ∉ FS.names (FS.Remove fs name) := by
  simp [FS.names, FS.Remove]

theorem not_mem_names_Remove_of (fs : FS) (a b : String) (h : a ∉ FS.names fs) :
    a ∉ FS.names (FS.Remove fs b) := by
  simp only [FS.names, FS.Remove, List.mem_map, not_exists, not_and] at h ⊢
  intro f hf
  exact h f (List.mem_of_mem_filter hf)

theorem mem_Create (fs : FS) (name : String) (f : File) (hf : f ∈ fs) (hn : f.name ≠ name) :
    f ∈ FS.Create fs name := by
  unfold FS.Create
  exact List.mem_cons_of_mem _ ((mem_Remove fs name f).2 ⟨hf, hn⟩)

theorem mem_WriteString (fs : FS) (name s : String) (f : File) (hf : f ∈ fs)
    (hn : f.name ≠ name) : f ∈ FS.WriteString fs name s := by
  unfold FS.WriteString
  refine List.mem_map.2 ⟨f, hf, ?_⟩
  rw [if_neg hn]

theorem buildCode_fs (env : World) (code name : String) (hct : env.createTemp = .ok name) :
    ∃ fsEnd, (buildCode env code).1 = FS.Remove (FS.Remove fsEnd (name ++ ".so")) name ∧
      (fsEnd = FS.Create env.fs name ∨
        fsEnd = (env.goBuild (FS.WriteString (FS.Create env.fs name) name code)
          (name ++ ".so") name).1) := by
  unfold buildCode
  rw [hct]
  simp only
  cases hws : env.writeString code with
  | some err => exact ⟨_, rfl, Or.inl rfl⟩
  | none =>
    rcases hg : env.goBuild (FS.WriteString (FS.Create env.fs name) name code)
      (name ++ ".so") name with ⟨fs3, oe⟩
    cases oe with
    | some err => exact ⟨fs3, rfl, Or.inr rfl⟩
    | none => exact ⟨fs3, rfl, Or.inr rfl⟩

/-- C8: for every source text and every outcome of `buildCode` after `os.CreateTemp` returned
the name `name` (write failure, toolchain failure, load failure, success), the file system
`buildCode` leaves behind contains neither `name` nor `name.so`; and when the toolchain run
itself deletes no file other than its output path, every other file that existed before the
call still exists, unchanged, after it. -/
theorem buildCode_removes_temp_files (env : World) (code name : String)
    (hct : env.createTemp = .ok name) :
    name ∉ FS.names (buildCode env code).1 ∧
      name ++ ".so" ∉ FS.names (buildCode env code).1 ∧
      ((∀ (fs : FS) (f : File), f ∈ fs → f.name ≠ name ++ ".so" →
          f ∈ (env.goBuild fs (name ++ ".so") name).1) →
        ∀ f ∈ env.fs, f.name ≠ name → f.name ≠ name ++ ".so" → f ∈ (buildCode env code).1) := by
  obtain ⟨fsEnd, hfs, hend⟩ := buildCode_fs env code name hct
  rw [hfs]
  refine ⟨not_mem_names_Remove _ _, not_mem_names_Remove_of _ _ _ (not_mem_names_Remove _ _), ?_⟩
  intro htool f hf hn hso
  have hc : f ∈ FS.Create env.fs name := mem_Create _ _ _ hf hn
  have hmem : f ∈ fsEnd := by
    rcases hend with h | h
    · rw [h]; exact hc
    · rw [h]; exact htool _ f (mem_WriteString _ _ _ _ hc hn) hso
  exact (mem_Remove _ _ _).2 ⟨(mem_Remove _ _ _).2 ⟨hmem, hso⟩, hn⟩

theorem buildCode_removes_temp_files_witness :
    (worldExporting (.func (some (sayFunc "v2")))).createTemp = .ok tempName ∧
      tempName ∉ FS.names (buildCode (worldExporting (.func (some (sayFunc "v2"))))
        "package main").1 ∧
      tempName ++ ".so" ∉ FS.names (buildCode (worldExporting (.func (some (sayFunc "v2"))))
        "package main").1 ∧
      ({ name := "/etc/hosts", data := "127.0.0.1 localhost" } : File)
        ∈ (buildCode (worldExporting (.func (some (sayFunc "v2")))) "package main").1 :=
  ⟨rfl,
    (buildCode_removes_temp_files (worldExporting (.func (some (sayFunc "v2"))))
      "package main" tempName rfl).1,
    (buildCode_removes_temp_files (worldExporting (.func (some (sayFunc "v2"))))
      "package main" tempName rfl).2.1,
    (buildCode_removes_temp_files (worldExporting (.func (some (sayFunc "v2"))))
      "package main" tempName rfl).2.2
      (fun fs f hf hn => List.mem_cons_of_mem _ ((mem_Remove fs _ f).2 ⟨hf, hn⟩))
      { name := "/etc/hosts", data := "127.0.0.1 localhost" } (by decide) (by decide)
      (by decide)⟩

/-! ## What the slot can hold -/

theorem lookupHandler_ok_symbol (p : Plugin) (hl : (lookupHandler p).2 = none) :
    ∃ s, p.Lookup "Handler" = .ok s ∧
      (s.nonNil = true → (Handler.ofHandlerFunc (lookupHandler p).1).callable = true) := by
  unfold lookupHandler at hl ⊢
  cases hlk : p.Lookup "Handler" with
  | error err => rw [hlk] at hl; cases hl
  | ok s =>
    refine ⟨s, rfl, ?_⟩
    rw [hlk] at hl
    cases s with
    | ptrHandlerFunc f => cases f <;> simp [Symbol.nonNil, Handler.callable]
    | handlerFunc f => cases f <;> simp [Symbol.nonNil, Handler.callable]
    | func f => cases f <;> simp [Symbol.nonNil, Handler.callable]
    | other t => cases hl

theorem step_cases (ctx : Context) (i : Input) :
    step ctx i = ctx ∨
      ∃ form p, i.r.Method = http.MethodPost ∧ i.r.ParseForm = .ok form ∧
        (buildCode i.env (TrimSpace (FormValue form "code"))).2 = .ok p ∧
        (lookupHandler p).2 = none ∧
        step ctx i =
          { Mutex := ctx.Mutex.Lock.Unlock, Plugin := .ofHandlerFunc (lookupHandler p).1 } := by
  cases hs : storeSucceeds i with
  | false => exact Or.inl (step_no_success ctx i hs)
  | true =>
    right
    unfold storeSucceeds at hs
    simp only [Bool.and_eq_true, decide_eq_true_eq] at hs
    obtain ⟨hm, hrest⟩ := hs
    cases hf : i.r.ParseForm with
    | error e => rw [hf] at hrest; cases hrest
    | ok form =>
      rw [hf] at hrest
      simp only at hrest
      cases hb : (buildCode i.env (TrimSpace (FormValue form "code"))).2 with
      | error e => rw [hb] at hrest; cases hrest
      | ok p =>
        rw [hb] at hrest
        simp only [Option.isNone_iff_eq_none] at hrest
        exact ⟨form, p, hm, rfl, hb, hrest, step_success ctx i.env i.r form p hm hf hb hrest⟩

theorem run_invariant (P : Context → Prop) (is : List Input)
    (hstep : ∀ ctx, ∀ i ∈ is, P ctx → P (step ctx i)) (ctx : Context) (h0 : P ctx) :
    P (run ctx is) := by
  induction is generalizing ctx with
  | nil => exact h0
  | cons i rest ih =>
    have h2 : run ctx (i :: rest) = run (step ctx i) rest := rfl
    rw [h2]
    exact ih (fun c j hj hc => hstep c j (List.mem_cons_of_mem i hj) hc) (step ctx i)
      (hstep ctx i (List.mem_cons_self i rest) h0)

/-- C7, as the code has it: starting from the context `main` creates, after every finite
sequence of requests the slot is not the nil interface; and when every module that `buildCode`
returned to a POST of the sequence (a module loaded during those requests) exports a `Handler`
whose function is not nil, the installed function value is not nil either, so a GET can be
dispatched to it.  (`lookupHandler` has no nil check: a module whose `Handler` variable holds
the nil `http.HandlerFunc` is installed as it is.) -/
theorem slot_never_nil_interface (is : List Input) :
    (run mainContext is).Plugin ≠ .nil ∧
      ((∀ i ∈ is, ∀ (form : Form) (p : Plugin) (s : Symbol),
          i.r.Method = http.MethodPost → i.r.ParseForm = .ok form →
          (buildCode i.env (TrimSpace (FormValue form "code"))).2 = .ok p →
          p.Lookup "Handler" = .ok s → s.nonNil = true) →
        (run mainContext is).Plugin.callable = true) := by
  constructor
  · refine run_invariant (fun c => c.Plugin ≠ .nil) is ?_ mainContext ?_
    · intro ctx i _ hc
      rcases step_cases ctx i with h | ⟨form, p, _, _, _, _, h⟩
      · rw [h]; exact hc
      · rw [h]; intro hn; cases hn
    · intro hn; cases hn
  · intro hmods
    refine run_invariant (fun c => c.Plugin.callable = true) is ?_ mainContext rfl
    intro ctx i hi hc
    rcases step_cases ctx i with h | ⟨form, p, hm, hf, hb, hl, h⟩
    · rw [h]; exact hc
    · rw [h]
      obtain ⟨s, hs, hcall⟩ := lookupHandler_ok_symbol p hl
      exact hcall (hmods i hi form p s hm hf hb hs)

theorem slot_never_nil_interface_witness :
    (run mainContext [({ env := worldExporting (.ptrHandlerFunc none), r := getRequest } : Input),
        { env := worldExporting (.ptrHandlerFunc (some (sayFunc "v1"))),
          r := postRequest "package main" },
        { env := worldBuildFails, r := postRequest "func" }]).Plugin ≠ .nil ∧
      (run mainContext [({ env := worldExporting (.ptrHandlerFunc none), r := getRequest } : Input),
        { env := worldExporting (.ptrHandlerFunc (some (sayFunc "v1"))),
          r := postRequest "package main" },
        { env := worldBuildFails, r := postRequest "func" }]).Plugin.callable = true :=
  ⟨(slot_never_nil_interface
      [({ env := worldExporting (.ptrHandlerFunc none), r := getRequest } : Input),
      { env := worldExporting (.ptrHandlerFunc (some (sayFunc "v1"))),
        r := postRequest "package main" },
      { env := worldBuildFails, r := postRequest "func" }]).1,
    (slot_never_nil_interface
      [({ env := worldExporting (.ptrHandlerFunc none), r := getRequest } : Input),
      { env := worldExporting (.ptrHandlerFunc (some (sayFunc "v1"))),
        r := postRequest "package main" },
      { env := worldBuildFails, r := postRequest "func" }]).2 (by
        intro i hi form p s hm hf hb hs
        simp only [List.mem_cons, List.mem_singleton, List.not_mem_nil, or_false] at hi
        rcases hi with rfl | rfl | rfl
        · exact absurd hm (by decide)
        · cases hf
          cases hb
          cases hs
          rfl
        · cases hf
          cases hb)⟩

/-- C7 as stated fails: a module whose `Handler` variable is a nil `http.HandlerFunc` builds and
resolves, the store is answered 204, the slot then holds a nil function value, and the next GET
panics inside `ServeHTTP`. -/
theorem nil_function_gets_installed :
    (pluginHandler (worldExporting (.ptrHandlerFunc none)) mainContext newResponseWriter
        (postRequest "package main")).w.status = some 204 ∧
      (run mainContext
        [{ env := worldExporting (.ptrHandlerFunc none),
           r := postRequest "package main" }]).Plugin.callable = false ∧
      (pluginHandler worldBuildFails
        (run mainContext
          [{ env := worldExporting (.ptrHandlerFunc none),
             r := postRequest "package main" }])
        newResponseWriter getRequest).panicked = true := by
  refine ⟨rfl, rfl, rfl⟩

/-! ## Lock discipline -/

theorem pluginHandler_cases (env : World) (ctx : Context) (w : ResponseWriter) (r : Request) :
    (r.Method = http.MethodGet ∧ ctx.Plugin = .nil ∧
        pluginHandler env ctx w r =
          { ctx := { Mutex := ctx.Mutex.RLock.RUnlock, Plugin := .nil }, w := w, fs := env.fs,
            panicked := true, trace := [.RLock, .readPlugin .nil, .RUnlock] }) ∨
      (r.Method = http.MethodGet ∧ ∃ f, ctx.Plugin = .ofHandlerFunc f ∧
        pluginHandler env ctx w r =
          { ctx := { Mutex := ctx.Mutex.RLock.RUnlock, Plugin := .ofHandlerFunc f },
            w := (HandlerFunc.ServeHTTP f w r).w, fs := env.fs,
            panicked := (HandlerFunc.ServeHTTP f w r).panicked,
            trace := [.RLock, .readPlugin (.ofHandlerFunc f), .ServeHTTP,
              .ServeHTTPDone (HandlerFunc.ServeHTTP f w r), .RUnlock] }) ∨
      (r.Method ≠ http.MethodGet ∧ storeSucceeds { env := env, r := r } = true ∧
        ∃ code h fs,
          pluginHandler env ctx w r =
            { ctx := { Mutex := ctx.Mutex.Lock.Unlock, Plugin := .ofHandlerFunc h },
              w := w.WriteHeader 204, fs := fs, panicked := false,
              trace := [.ParseForm, .buildCode code, .lookupHandler, .Lock,
                .writePlugin (.ofHandlerFunc h), .Unlock, .WriteHeader 204] }) ∨
      (r.Method ≠ http.MethodGet ∧ storeSucceeds { env := env, r := r } = false ∧
        ∃ code msg w1 fs t,
          pluginHandler env ctx w r =
            { ctx := ctx, w := w1, fs := fs, panicked := false, trace := t } ∧
          (t = [.Error 405] ∨ t = [.ParseForm, .Error 400] ∨
            t = [.ParseForm, .buildCode code, .slogError msg, .Error 500] ∨
            t = [.ParseForm, .buildCode code, .lookupHandler, .slogError msg, .Error 500])) := by
  by_cases hg : r.Method = http.MethodGet
  · rw [pluginHandler_get env ctx w r hg]
    obtain ⟨m, pl⟩ := ctx
    cases pl with
    | nil => exact Or.inl ⟨hg, rfl, rfl⟩
    | ofHandlerFunc f => exact Or.inr (Or.inl ⟨hg, f, rfl, rfl⟩)
  · right; right
    by_cases hpst : r.Method = http.MethodPost
    · rw [pluginHandler_post env ctx w r hpst]
      cases hf : r.ParseForm with
      | error e =>
        right
        exact ⟨hg, by simp [storeSucceeds, hf], "", "", _, _, _,
          storeHandler_parse_error env ctx w r e hf, Or.inr (Or.inl rfl)⟩
      | ok form =>
        cases hb : (buildCode env (TrimSpace (FormValue form "code"))).2 with
        | error e =>
          right
          exact ⟨hg, by simp [storeSucceeds, hf, hb], TrimSpace (FormValue form "code"),
            e.Error, _, _, _, storeHandler_build_error env ctx w r form e hf hb,
            Or.inr (Or.inr (Or.inl rfl))⟩
        | ok p =>
          cases hl : (lookupHandler p).2 with
          | some e =>
            right
            exact ⟨hg, by simp [storeSucceeds, hf, hb, hl], TrimSpace (FormValue form "code"),
              e.Error, _, _, _, storeHandler_lookup_error env ctx w r form p e hf hb hl,
              Or.inr (Or.inr (Or.inr rfl))⟩
          | none =>
            left
            exact ⟨hg, by simp [storeSucceeds, hpst, hf, hb, hl],
              TrimSpace (FormValue form "code"), (lookupHandler p).1, _,
              storeHandler_success env ctx w r form p hf hb hl⟩
    · right
      exact ⟨hg, by simp [storeSucceeds, hpst], "", "", _, _, _,
        pluginHandler_other env ctx w r hg hpst, Or.inl rfl⟩

theorem step_mutex_free (ctx : Context) (i : Input) (h : ctx.Mutex = RWMutex.free) :
    (step ctx i).Mutex = RWMutex.free := by
  rcases step_cases ctx i with hs | ⟨form, p, _, _, _, _, hs⟩
  · rw [hs]; exact h
  · rw [hs, h]; rfl

/-- C10: over the ordered event trace of one request, where every event is emitted by the
statement that performs it.  The trace accounts for the mutex and the slot: run from a free
mutex, the lock monitor accepts it and ends in the mutex state the request really leaves, which
is free again (as it is in every state reachable from the context of `main`), and replaying the
slot writes of the trace on the old slot gives the slot the request really leaves.  The monitor
accepting means the slot is read only while a read lock is held and written only while the
write lock is held, the installed handler runs under the read lock, and build, resolution and
the 204 status happen with no lock held.  A GET takes the read lock, reads the slot, runs the
handler it read (whose result is the response) and only then releases the lock.  A successful
POST builds and resolves, then takes the write lock, assigns the slot exactly once, releases
the lock and only then writes 204.  A failed POST, like a request with any other method,
performs no lock operation, does not touch the slot and leaves the context as it was. -/
theorem lock_discipline (env : World) (ctx : Context) (w : ResponseWriter) (r : Request) :
    lockRun RWMutex.free (pluginHandler env ctx w r).trace = some RWMutex.free ∧
      (ctx.Mutex = RWMutex.free →
        lockRun ctx.Mutex (pluginHandler env ctx w r).trace
            = some (pluginHandler env ctx w r).ctx.Mutex ∧
          (pluginHandler env ctx w r).ctx.Mutex = RWMutex.free) ∧
      (∀ is : List Input, (run mainContext is).Mutex = RWMutex.free) ∧
      slotAfter ctx.Plugin (pluginHandler env ctx w r).trace
        = (pluginHandler env ctx w r).ctx.Plugin ∧
      (r.Method = http.MethodGet →
        ∃ mid, (pluginHandler env ctx w r).trace
            = [.RLock, .readPlugin ctx.Plugin] ++ mid ++ [.RUnlock] ∧
          (∀ e ∈ mid, e.isLockOp = false ∧ e.isSlotWrite = false) ∧
          (∀ f, ctx.Plugin = .ofHandlerFunc f →
            mid = [.ServeHTTP, .ServeHTTPDone (HandlerFunc.ServeHTTP f w r)] ∧
              (pluginHandler env ctx w r).w = (HandlerFunc.ServeHTTP f w r).w ∧
              (pluginHandler env ctx w r).panicked = (HandlerFunc.ServeHTTP f w r).panicked)) ∧
      (r.Method = http.MethodPost → storeSucceeds { env := env, r := r } = true →
        (∃ code h, (pluginHandler env ctx w r).trace
            = [.ParseForm, .buildCode code, .lookupHandler, .Lock,
              .writePlugin (.ofHandlerFunc h), .Unlock, .WriteHeader 204] ∧
            (pluginHandler env ctx w r).ctx.Plugin = .ofHandlerFunc h) ∧
          ((pluginHandler env ctx w r).trace.filter Event.isSlotWrite).length = 1) ∧
      (r.Method ≠ http.MethodGet → storeSucceeds { env := env, r := r } = false →
        (∀ e ∈ (pluginHandler env ctx w r).trace,
          e.isLockOp = false ∧ e.isSlotWrite = false ∧ e.isSlotRead = false) ∧
          (pluginHandler env ctx w r).ctx = ctx) := by
  have hrun : ∀ is : List Input, (run mainContext is).Mutex = RWMutex.free := fun is =>
    run_invariant (fun c => c.Mutex = RWMutex.free) is
      (fun c i _ hc => step_mutex_free c i hc) mainContext rfl
  rcases pluginHandler_cases env ctx w r with ⟨hg, hp, hres⟩ | ⟨hg, f, hp, hres⟩ |
    ⟨hg, hs, code, h, fs, hres⟩ | ⟨hg, hs, code, msg, w1, fs, t, hres, ht⟩
  · have hpost : ¬ r.Method = http.MethodPost := by rw [hg]; decide
    rw [hres]
    refine ⟨rfl, ?_, hrun, ?_, ?_, fun h => absurd h hpost, fun h => absurd hg h⟩
    · intro hm; rw [hm]; exact ⟨rfl, rfl⟩
    · rw [hp]; rfl
    · intro _
      refine ⟨[], ?_, by simp, ?_⟩
      · rw [hp]; rfl
      · intro f hf; rw [hp] at hf; cases hf
  · have hpost : ¬ r.Method = http.MethodPost := by rw [hg]; decide
    rw [hres]
    refine ⟨rfl, ?_, hrun, ?_, ?_, fun h => absurd h hpost, fun h => absurd hg h⟩
    · intro hm; rw [hm]; exact ⟨rfl, rfl⟩
    · rw [hp]; rfl
    · intro _
      refine ⟨[.ServeHTTP, .ServeHTTPDone (HandlerFunc.ServeHTTP f w r)], ?_,
        by simp [Event.isLockOp, Event.isSlotWrite], ?_⟩
      · rw [hp]; rfl
      · intro g hgf
        rw [hp] at hgf
        cases hgf
        exact ⟨rfl, rfl, rfl⟩
  · rw [hres]
    refine ⟨rfl, ?_, hrun, rfl, fun h => absurd h hg, fun _ _ => ⟨⟨code, h, rfl, rfl⟩, rfl⟩, ?_⟩
    · intro hm; rw [hm]; exact ⟨rfl, rfl⟩
    · intro _ hf
      rw [hs] at hf
      cases hf
  · rw [hres]
    refine ⟨?_, ?_, hrun, ?_, fun h => absurd h hg, ?_, ?_⟩
    · rcases ht with ht | ht | ht | ht <;> rw [ht] <;> rfl
    · intro hm
      refine ⟨?_, hm⟩
      rw [hm]
      rcases ht with ht | ht | ht | ht <;> rw [ht] <;> rfl
    · rcases ht with ht | ht | ht | ht <;> rw [ht] <;> rfl
    · intro _ hf
      rw [hs] at hf
      cases hf
    · intro _ _
      refine ⟨?_, rfl⟩
      rcases ht with ht | ht | ht | ht <;> rw [ht] <;>
        simp [Event.isLockOp, Event.isSlotWrite, Event.isSlotRead]

theorem lock_discipline_witness :
    mainContext.Mutex = RWMutex.free ∧
      (postRequest "package main").Method = http.MethodPost ∧
      storeSucceeds { env := worldExporting (.func (some (sayFunc "v2"))),
                      r := postRequest "package main" } = true ∧
      ((pluginHandler (worldExporting (.func (some (sayFunc "v2")))) mainContext
        newResponseWriter (postRequest "package main")).trace.filter
          Event.isSlotWrite).length = 1 ∧
      (pluginHandler (worldExporting (.func (some (sayFunc "v2")))) mainContext
        newResponseWriter (postRequest "package main")).ctx.Mutex = RWMutex.free ∧
      lockRun RWMutex.free (pluginHandler worldBuildFails mainContext newResponseWriter
        getRequest).trace = some RWMutex.free :=
  ⟨rfl, rfl, by decide,
    ((lock_discipline (worldExporting (.func (some (sayFunc "v2")))) mainContext
      newResponseWriter (postRequest "package main")).2.2.2.2.2.1 rfl (by decide)).2,
    ((lock_discipline (worldExporting (.func (some (sayFunc "v2")))) mainContext
      newResponseWriter (postRequest "package main")).2.1 rfl).2,
    (lock_discipline worldBuildFails mainContext newResponseWriter getRequest).1⟩

end PluginDemo
